import Mathlib

/-
Verification of the load-balancing (drafting) agent of the LWI repository
(FREEDM DGI, Broker/src/lb/LoadBalance.cpp) together with the physical-device
wrappers (Broker/src/CGridLinkDevice.cpp, Broker/src/CPVDevice.cpp).

The embedding follows the source files.  Device power levels are C++ doubles
used only through exact comparisons, additions and subtractions; they are
modelled as rationals.  The peer sets (l_AllPeers, m_LoNodes, m_HiNodes,
m_NoNodes) are std::map containers keyed by UUID; they are modelled as
duplicate-free lists of UUID strings, with InsertInPeerSet appending a key
that is not yet present and EraseInPeerSet removing a key.  (The helpers
InsertInPeerSet / EraseInPeerSet / CountInPeerSet and the LPeerNode class are
declared in LoadBalance.hpp, which is not part of the sources; their standard
map semantics is taken from their uses in LoadBalance.cpp.)  Logging and the
load-table printout have no effect on agent state and are not modelled.
-/

namespace LWI

/-- Load states of LPeerNode as used by LoadBalance.cpp (SUPPLY, DEMAND,
NORM) plus the UNKNOWN fallback that the load handler reports as the
status string Unknown. -/
inductive LoadState
  | SUPPLY
  | DEMAND
  | NORM
  | UNKNOWN
deriving DecidableEq, Repr

/-- Device types of PhysicalDeviceTypes.hpp used by the agent: DRER
(renewable source), DESD (storage), LOAD, DG (diesel generator) and GRID
(grid link). -/
inductive DeviceType
  | DRER
  | DESD
  | LOAD
  | DG
  | GRID
deriving DecidableEq, Repr

/-- One registered physical device as the agent sees it through
CPhysicalDeviceManager: an identifier, a device type and the power level its
get_powerLevel() reports. -/
structure Device where
  id : String
  dtype : DeviceType
  power : ℚ
deriving DecidableEq, Repr

/-- Sum of get_powerLevel() over the DRER devices (net_gen accumulation in
lbAgent::LoadTable, LoadBalance.cpp:406-412). -/
def net_gen (devs : List Device) : ℚ :=
  ((devs.filter (fun d => d.dtype = DeviceType.DRER)).map Device.power).sum

/-- Sum of get_powerLevel() over the DESD devices (net_storage accumulation in
lbAgent::LoadTable, LoadBalance.cpp:414-421). -/
def net_storage (devs : List Device) : ℚ :=
  ((devs.filter (fun d => d.dtype = DeviceType.DESD)).map Device.power).sum

/-- Sum of get_powerLevel() over the LOAD devices (net_load accumulation in
lbAgent::LoadTable, LoadBalance.cpp:422-429). -/
def net_load (devs : List Device) : ℚ :=
  ((devs.filter (fun d => d.dtype = DeviceType.LOAD)).map Device.power).sum

/-- The mutable state of one lbAgent: its own UUID, the current and previous
load status, DemandValue, the load-table figures, and the four peer sets.
The unused step counter of the constructor is omitted. -/
structure AgentState where
  selfUUID : String
  l_Status : LoadState
  preLoad : LoadState
  DemandValue : ℚ
  P_Gen : ℚ
  B_Soc : ℚ
  P_Load : ℚ
  P_Gateway : ℚ
  l_AllPeers : List String
  m_LoNodes : List String
  m_HiNodes : List String
  m_NoNodes : List String
deriving DecidableEq, Repr

/-- InsertInPeerSet on a std::map keyed by UUID: a key already present is
left alone, a new key is added. -/
def InsertInPeerSet (set : List String) (u : String) : List String :=
  if u ∈ set then set else set ++ [u]

/-- EraseInPeerSet on a std::map keyed by UUID: the key is removed. -/
def EraseInPeerSet (set : List String) (u : String) : List String :=
  set.filter (fun v => v ≠ u)

/-- lbAgent::get_peer (LoadBalance.cpp:860-871): look the UUID up in
l_AllPeers; a missing UUID yields the null PeerNodePtr, modelled as none. -/
def get_peer (s : AgentState) (uuid : String) : Option String :=
  if uuid ∈ s.l_AllPeers then some uuid else none

/-- lbAgent::add_peer (LoadBalance.cpp:873-881): create a peer entry and
insert it into l_AllPeers and into m_NoNodes (classification NORMAL). -/
def add_peer (s : AgentState) (uuid : String) : AgentState :=
  { s with
    l_AllPeers := InsertInPeerSet s.l_AllPeers uuid
    m_NoNodes := InsertInPeerSet s.m_NoNodes uuid }

/-- The erase-then-insert reclassification used by every handler of
LoadBalance.cpp (for example lines 622-627 for request and 673-676 for
demand) and by the self entry update of LoadTable (lines 475-489): the UUID
is erased from m_LoNodes, m_HiNodes and m_NoNodes and inserted into the
bucket matching the given state; no bucket receives it for UNKNOWN, which
mirrors the absent else branch of the source. -/
def reclassifyPeer (s : AgentState) (u : String) (b : LoadState) : AgentState :=
  let lo := EraseInPeerSet s.m_LoNodes u
  let hi := EraseInPeerSet s.m_HiNodes u
  let no := EraseInPeerSet s.m_NoNodes u
  match b with
  | LoadState.SUPPLY =>
      { s with m_LoNodes := InsertInPeerSet lo u, m_HiNodes := hi, m_NoNodes := no }
  | LoadState.DEMAND =>
      { s with m_LoNodes := lo, m_HiNodes := InsertInPeerSet hi u, m_NoNodes := no }
  | LoadState.NORM =>
      { s with m_LoNodes := lo, m_HiNodes := hi, m_NoNodes := InsertInPeerSet no u }
  | LoadState.UNKNOWN =>
      { s with m_LoNodes := lo, m_HiNodes := hi, m_NoNodes := no }

/-- The status computation of lbAgent::LoadTable (LoadBalance.cpp:465-467):
SUPPLY when P_Gateway is at most 0, DEMAND when P_Gateway exceeds 1, NORM
otherwise.  The gateway reading of the grid1 device (line 442) is only
printed and plays no part. -/
def lbStatus (P_Gateway : ℚ) : LoadState :=
  if P_Gateway ≤ 0 then LoadState.SUPPLY
  else if P_Gateway > 1 then LoadState.DEMAND
  else LoadState.NORM

/-- The DemandValue update of lbAgent::LoadTable (LoadBalance.cpp:466):
DemandValue is assigned 1 - P_Gateway exactly in the DEMAND branch and keeps
its previous value otherwise. -/
def lbDemandValue (P_Gateway old : ℚ) : ℚ :=
  if P_Gateway ≤ 0 then old
  else if P_Gateway > 1 then 1 - P_Gateway
  else old

/-- lbAgent::LoadTable (LoadBalance.cpp:388-508): recompute the net figures
from the devices, set P_Gateway = P_Load - P_Gen, classify, and move the
agent's own entry of l_AllPeers into the bucket matching the new status
(lines 471-491).  The diagnostic prints, including the grid1 gateway read
whose value CGridLinkDevice::get_powerLevel never returns, do not touch the
state. -/
def LoadTable (s : AgentState) (devs : List Device) : AgentState :=
  let pGen := net_gen devs
  let bSoc := net_storage devs
  let pLoad := net_load devs
  let pGateway := pLoad - pGen
  let s1 : AgentState :=
    { s with
      P_Gen := pGen
      B_Soc := bSoc
      P_Load := pLoad
      P_Gateway := pGateway
      l_Status := lbStatus pGateway
      DemandValue := lbDemandValue pGateway s.DemandValue }
  if s1.selfUUID ∈ s1.l_AllPeers then reclassifyPeer s1 s1.selfUUID s1.l_Status
  else s1

/-- Modelled from the spec: the piecewise classifier of spec section 4.3,
written from the spec's words for comparison with the source classifier.
It takes the gateway flow m into account and reports the demand magnitude
load - gen (or load - (gen - m)) when it yields DEMAND. -/
def specClassify (gen load m : ℚ) : LoadState × Option ℚ :=
  if m = 0 then
    if load < gen then (LoadState.SUPPLY, none)
    else if gen < load then (LoadState.DEMAND, some (load - gen))
    else (LoadState.NORM, none)
  else if 0 < m then
    if load < gen - m then (LoadState.SUPPLY, none) else (LoadState.NORM, none)
  else
    if load ≤ gen - m then (LoadState.NORM, none)
    else (LoadState.DEMAND, some (load - (gen - m)))

/-- Bodies of outbound messages built by LoadBalance.cpp: the lb-tagged
demand, normal, request, yes, no, drafting and accept messages (accept
carries lb.value) and the sc-tagged status reply of the load handler. -/
inductive OutBody
  | demand
  | normal
  | request
  | yes
  | no
  | drafting
  | accept (value : ℚ)
  | scStatus (status : String)
deriving DecidableEq, Repr

/-- One outbound send: the destination peer (the UUID whose handle Send is
invoked on) and the message body. -/
structure OutMsg where
  dest : String
  body : OutBody
deriving DecidableEq, Repr

/-- Device commands a handler could issue.  turnOn and turnOff are the
IPhysicalDevice switch operations; setValue is IPhysicalDevice::Set. -/
inductive PowerAction
  | turnOn (id : String)
  | turnOff (id : String)
  | setValue (id : String) (key : String) (value : ℚ)
deriving DecidableEq, Repr

/-- Bodies of inbound lb messages dispatched by lbAgent::HandleRead.  The
peerList body carries the raw comma-joined lb.peers string; accept carries
the parsed lb.value; other stands for any unrecognized lb value. -/
inductive MsgBody
  | peerList (peers : String)
  | request
  | demand
  | normal
  | supply
  | yes
  | no
  | drafting
  | accept (value : ℚ)
  | load
  | other (tag : String)
deriving DecidableEq, Repr

/-- An inbound lb message: the lb.source UUID and the body. -/
structure Msg where
  source : String
  body : MsgBody
deriving DecidableEq, Repr

/-- The broadcast loops of LoadBalance.cpp (for example lines 163-178 and
297-312): iterate a peer set, skip the agent's own UUID, and send the given
message to every remaining peer. -/
def broadcastTo (peers : List String) (selfUUID : String) (b : OutBody) : List OutMsg :=
  (peers.filter (fun u => u ≠ selfUUID)).map (fun u => { dest := u, body := b })

/-- lbAgent::SendDraftRequest (LoadBalance.cpp:277-315): when the current
status is SUPPLY, send the request message to every peer of m_HiNodes other
than self; with an empty m_HiNodes only a notice is logged.  Nothing is sent
when the status is not SUPPLY. -/
def SendDraftRequest (s : AgentState) : List OutMsg :=
  if s.l_Status = LoadState.SUPPLY then broadcastTo s.m_HiNodes s.selfUUID OutBody.request
  else []

/-- lbAgent::LoadManage (LoadBalance.cpp:124-230): remember the previous
status in preLoad, recompute the status with LoadTable, then broadcast
demand on a NORM to DEMAND change, broadcast normal on a DEMAND to NORM
change, and otherwise initiate SendDraftRequest when in SUPPLY.  Returns
the new state and the sends of this tick. -/
def LoadManage (s : AgentState) (devs : List Device) : AgentState × List OutMsg :=
  let s1 := LoadTable { s with preLoad := s.l_Status } devs
  if s1.preLoad = LoadState.NORM ∧ s1.l_Status = LoadState.DEMAND then
    (s1, broadcastTo s1.l_AllPeers s1.selfUUID OutBody.demand)
  else if s1.preLoad = LoadState.DEMAND ∧ s1.l_Status = LoadState.NORM then
    (s1, broadcastTo s1.l_AllPeers s1.selfUUID OutBody.normal)
  else if s1.l_Status = LoadState.SUPPLY then
    (s1, SendDraftRequest s1)
  else
    (s1, [])

/-- lbAgent::InitiatePowerMigration (LoadBalance.cpp:327-376): builds a map
of the DESD power levels, walks it in decreasing order updating the local
variables temp_ and V_in, and returns.  Both Set("vin", ...) statements
(lines 363 and 370) are commented out in the source, so the walk only
updates locals and the function issues no device command at all; the list of
device commands it performs is therefore empty for every input. -/
def InitiatePowerMigration (devs : List Device) (DemandValue : ℚ) : List PowerAction :=
  []

/-- The status string of the load reply (LoadBalance.cpp:824-839). -/
def statusString (st : LoadState) : String :=
  match st with
  | LoadState.SUPPLY => "SUPPLY"
  | LoadState.DEMAND => "DEMAND"
  | LoadState.NORM => "NORMAL"
  | LoadState.UNKNOWN => "Unknown"

/-- The comma tokenization of the peerList handler (LoadBalance.cpp:599-613):
getline with delimiter comma yields each segment, except that the segment
after a trailing comma and the single segment of an empty string are never
produced because getline fails at end of input. -/
def getlineTokens (s : String) : List String :=
  if s = ("") then []
  else if s.endsWith (",") then (s.splitOn (",")).dropLast
  else s.splitOn (",")

/-- The add-missing-peers loop of the peerList handler
(LoadBalance.cpp:599-613): for each token, a UUID already known in
l_AllPeers is left alone and an unknown one is added with add_peer. -/
def addMissingPeers (s : AgentState) (toks : List String) : AgentState :=
  toks.foldl
    (fun st tok =>
      match get_peer st tok with
      | some _ => st
      | none => add_peer st tok)
    s

/-- The peerList branch of lbAgent::HandleRead (LoadBalance.cpp:565-614):
every peer other than self is erased from l_AllPeers, m_LoNodes, m_HiNodes
and m_NoNodes, and then each token of the roster string that is not already
known is added (into l_AllPeers and m_NoNodes). -/
def processPeerList (s : AgentState) (peers_ : String) : AgentState :=
  let s1 : AgentState :=
    { s with
      l_AllPeers := s.l_AllPeers.filter (fun u => u = s.selfUUID)
      m_LoNodes := s.m_LoNodes.filter (fun u => u = s.selfUUID)
      m_HiNodes := s.m_HiNodes.filter (fun u => u = s.selfUUID)
      m_NoNodes := s.m_NoNodes.filter (fun u => u = s.selfUUID) }
  addMissingPeers s1 (getlineTokens peers_)

/-- lbAgent::HandleRead (LoadBalance.cpp:532-857).  The preamble (lines
543-561) looks the source UUID up and adds it as a peer when it is unknown,
but leaves peer_ as the null pointer when the source is the agent itself.
Each branch then follows the source: the peer-guarded branches dereference
peer_, which faults (Except.error) on a null pointer; the load branch
re-fetches the peer from the registry and replies even to self.  The result
carries the new state, the sends and the device commands. -/
def HandleRead (devs : List Device) (s0 : AgentState) (msg : Msg) :
    Except Unit (AgentState × List OutMsg × List PowerAction) :=
  let pre : AgentState × Option String :=
    if msg.source = s0.selfUUID then (s0, none)
    else
      match get_peer s0 msg.source with
      | some u => (s0, some u)
      | none =>
          let s1 := add_peer s0 msg.source
          (s1, get_peer s1 msg.source)
  let s := pre.1
  let peer? := pre.2
  match msg.body with
  | MsgBody.peerList peers_ => Except.ok (processPeerList s peers_, [], [])
  | MsgBody.request =>
      match peer? with
      | none => Except.error ()
      | some p =>
          if p = s.selfUUID then Except.ok (s, [], [])
          else
            let s2 := reclassifyPeer s p LoadState.SUPPLY
            let reply := if s.l_Status = LoadState.DEMAND then OutBody.yes else OutBody.no
            Except.ok (s2, [{ dest := p, body := reply }], [])
  | MsgBody.demand =>
      match peer? with
      | none => Except.error ()
      | some p =>
          if p = s.selfUUID then Except.ok (s, [], [])
          else Except.ok (reclassifyPeer s p LoadState.DEMAND, [], [])
  | MsgBody.normal =>
      match peer? with
      | none => Except.error ()
      | some p =>
          if p = s.selfUUID then Except.ok (s, [], [])
          else Except.ok (reclassifyPeer s p LoadState.NORM, [], [])
  | MsgBody.supply =>
      match peer? with
      | none => Except.error ()
      | some p =>
          if p = s.selfUUID then Except.ok (s, [], [])
          else Except.ok (reclassifyPeer s p LoadState.SUPPLY, [], [])
  | MsgBody.yes =>
      match peer? with
      | none => Except.error ()
      | some p =>
          if p = s.selfUUID then Except.ok (s, [], [])
          else if s.l_Status = LoadState.SUPPLY then
            Except.ok (s, [{ dest := p, body := OutBody.drafting }], [])
          else Except.ok (s, [], [])
  | MsgBody.no =>
      match peer? with
      | none => Except.error ()
      | some p => Except.ok (s, [], [])
  | MsgBody.drafting =>
      match peer? with
      | none => Except.error ()
      | some p =>
          if p = s.selfUUID then Except.ok (s, [], [])
          else if s.l_Status = LoadState.DEMAND then
            Except.ok (s, [{ dest := p, body := OutBody.accept s.DemandValue }], [])
          else Except.ok (s, [], [])
  | MsgBody.accept v =>
      match peer? with
      | none => Except.error ()
      | some p =>
          if p = s.selfUUID then Except.ok (s, [], [])
          else if s.l_Status = LoadState.SUPPLY then
            Except.ok (s, [], InitiatePowerMigration devs v)
          else Except.ok (s, [], [])
  | MsgBody.load =>
      match get_peer s msg.source with
      | none => Except.error ()
      | some p =>
          Except.ok (s, [{ dest := p, body := OutBody.scStatus (statusString s.l_Status) }], [])
  | MsgBody.other _ => Except.ok (s, [], [])

/-- State projection of a HandleRead result; a faulted call keeps the given
default. -/
def hrState (dflt : AgentState) (r : Except Unit (AgentState × List OutMsg × List PowerAction)) :
    AgentState :=
  match r with
  | Except.ok t => t.1
  | Except.error _ => dflt

/-- Sends of a HandleRead result. -/
def hrMsgs (r : Except Unit (AgentState × List OutMsg × List PowerAction)) : List OutMsg :=
  match r with
  | Except.ok t => t.2.1
  | Except.error _ => []

/-- Device commands of a HandleRead result. -/
def hrActs (r : Except Unit (AgentState × List OutMsg × List PowerAction)) : List PowerAction :=
  match r with
  | Except.ok t => t.2.2
  | Except.error _ => []

/-- Whether a HandleRead call ran to completion (false on the modelled null
peer dereference). -/
def hrOk (r : Except Unit (AgentState × List OutMsg × List PowerAction)) : Bool :=
  match r with
  | Except.ok _ => true
  | Except.error _ => false

/-- CPSCADDevice::Get, the read from the PSCAD simulation, abstracted as an
environment from setting keys to values. -/
def pscadGet (env : String → ℚ) (key : String) : ℚ := env key

/-- The observable outcome of one C plus plus member function call on a
device wrapper: the keys it fetched with Get and the value of its return
statement, none when the body reaches the end without returning. -/
structure DeviceCall where
  reads : List String
  ret : Option ℚ
deriving Repr

/-- CGridLinkDevice::get_powerLevel (CGridLinkDevice.cpp:55-58): the body
executes CPSCADDevice::Get("powerLevel") as a bare expression statement and
contains no return statement, so no value is returned. -/
def CGridLinkDevice_get_powerLevel (env : String → ℚ) : DeviceCall :=
  { reads := [("powerLevel")], ret := none }

/-- CPVDevice::get_powerLevel (CPVDevice.cpp:55-58): the body returns
CPSCADDevice::Get("powerLevel"). -/
def CPVDevice_get_powerLevel (env : String → ℚ) : DeviceCall :=
  { reads := [("powerLevel")], ret := some (pscadGet env ("powerLevel")) }

/-- A five-device bench mirroring the devices LoadTable reads by name:
pv1 (DRER), battery1 (DESD), load1 (LOAD), grid1 (GRID), dg1 (DG). -/
def bench (pv battery loadv grid dg : ℚ) : List Device :=
  [{ id := ("pv1"), dtype := DeviceType.DRER, power := pv },
   { id := ("battery1"), dtype := DeviceType.DESD, power := battery },
   { id := ("load1"), dtype := DeviceType.LOAD, power := loadv },
   { id := ("grid1"), dtype := DeviceType.GRID, power := grid },
   { id := ("dg1"), dtype := DeviceType.DG, power := dg }]

/-- Devices with net generation 3 and net load 5. -/
def devsGen3Load5 : List Device := bench 3 0 5 0 0

/-- Devices with net generation 5 and net load 5. -/
def devsGen5Load5 : List Device := bench 5 0 5 0 0

/-- Devices with net generation 5 and net load 0. -/
def devsGen5Load0 : List Device := bench 5 0 0 0 0

/-- An agent A in NORM state knowing peers B and C, all in the NORMAL
bucket. -/
def stNorm : AgentState :=
  { selfUUID := ("A"), l_Status := LoadState.NORM, preLoad := LoadState.NORM,
    DemandValue := 0, P_Gen := 0, B_Soc := 0, P_Load := 0, P_Gateway := 0,
    l_AllPeers := [("A"), ("B"), ("C")], m_LoNodes := [], m_HiNodes := [],
    m_NoNodes := [("A"), ("B"), ("C")] }

/-- An agent A in DEMAND state with DemandValue 2, knowing peer B. -/
def stDemand : AgentState :=
  { selfUUID := ("A"), l_Status := LoadState.DEMAND, preLoad := LoadState.DEMAND,
    DemandValue := 2, P_Gen := 3, B_Soc := 0, P_Load := 5, P_Gateway := 2,
    l_AllPeers := [("A"), ("B")], m_LoNodes := [], m_HiNodes := [("A")],
    m_NoNodes := [("B")] }

/-- An agent A in SUPPLY state knowing peers B (in the DEMAND bucket) and C
(in the NORMAL bucket). -/
def stSupply : AgentState :=
  { selfUUID := ("A"), l_Status := LoadState.SUPPLY, preLoad := LoadState.SUPPLY,
    DemandValue := 0, P_Gen := 5, B_Soc := 0, P_Load := 0, P_Gateway := -5,
    l_AllPeers := [("A"), ("B"), ("C")], m_LoNodes := [("A")], m_HiNodes := [("B")],
    m_NoNodes := [("C")] }

theorem net_gen_bench (pv battery loadv grid dg : ℚ) :
    net_gen (bench pv battery loadv grid dg) = pv := by
  simp [net_gen, bench]

theorem net_load_bench (pv battery loadv grid dg : ℚ) :
    net_load (bench pv battery loadv grid dg) = loadv := by
  simp [net_load, bench]

theorem net_storage_bench (pv battery loadv grid dg : ℚ) :
    net_storage (bench pv battery loadv grid dg) = battery := by
  simp [net_storage, bench]

theorem reclassifyPeer_selfUUID (s : AgentState) (u : String) (b : LoadState) :
    (reclassifyPeer s u b).selfUUID = s.selfUUID := by
  cases b <;> rfl

theorem reclassifyPeer_l_Status (s : AgentState) (u : String) (b : LoadState) :
    (reclassifyPeer s u b).l_Status = s.l_Status := by
  cases b <;> rfl

theorem reclassifyPeer_preLoad (s : AgentState) (u : String) (b : LoadState) :
    (reclassifyPeer s u b).preLoad = s.preLoad := by
  cases b <;> rfl

theorem reclassifyPeer_DemandValue (s : AgentState) (u : String) (b : LoadState) :
    (reclassifyPeer s u b).DemandValue = s.DemandValue := by
  cases b <;> rfl

theorem reclassifyPeer_l_AllPeers (s : AgentState) (u : String) (b : LoadState) :
    (reclassifyPeer s u b).l_AllPeers = s.l_AllPeers := by
  cases b <;> rfl

theorem LoadTable_l_Status (s : AgentState) (devs : List Device) :
    (LoadTable s devs).l_Status = lbStatus (net_load devs - net_gen devs) := by
  simp only [LoadTable]
  split
  · rw [reclassifyPeer_l_Status]
  · rfl

theorem LoadTable_DemandValue (s : AgentState) (devs : List Device) :
    (LoadTable s devs).DemandValue =
      lbDemandValue (net_load devs - net_gen devs) s.DemandValue := by
  simp only [LoadTable]
  split
  · rw [reclassifyPeer_DemandValue]
  · rfl

theorem LoadTable_selfUUID (s : AgentState) (devs : List Device) :
    (LoadTable s devs).selfUUID = s.selfUUID := by
  simp only [LoadTable]
  split
  · rw [reclassifyPeer_selfUUID]
  · rfl

theorem LoadTable_preLoad (s : AgentState) (devs : List Device) :
    (LoadTable s devs).preLoad = s.preLoad := by
  simp only [LoadTable]
  split
  · rw [reclassifyPeer_preLoad]
  · rfl

theorem LoadTable_l_AllPeers (s : AgentState) (devs : List Device) :
    (LoadTable s devs).l_AllPeers = s.l_AllPeers := by
  simp only [LoadTable]
  split
  · rw [reclassifyPeer_l_AllPeers]
  · rfl

/-- C1 (amended): the LoadTable classifier ignores the gateway reading and
depends only on P_Gateway = net_load - net_gen: SUPPLY when P_Gateway is at
most 0, DEMAND with DemandValue = 1 - P_Gateway when P_Gateway exceeds 1,
NORM otherwise, with DemandValue untouched outside the DEMAND branch. -/
theorem loadTable_threshold_rule (s : AgentState) (devs : List Device) :
    (LoadTable s devs).l_Status =
      (if net_load devs - net_gen devs ≤ 0 then LoadState.SUPPLY
       else if 1 < net_load devs - net_gen devs then LoadState.DEMAND
       else LoadState.NORM) ∧
    (LoadTable s devs).DemandValue =
      (if 1 < net_load devs - net_gen devs then 1 - (net_load devs - net_gen devs)
       else s.DemandValue) := by
  constructor
  · rw [LoadTable_l_Status]
    rfl
  · rw [LoadTable_DemandValue]
    unfold lbDemandValue
    split_ifs with h1 h2 h3 <;> first
      | rfl
      | (exact absurd h2 (by linarith))

/-- C1 (counterexample): for gen 5, load 5 and gateway flow 0 the spec rule
of section 4.3 yields NORMAL, but LoadTable classifies the node SUPPLY. -/
theorem loadTable_spec_mismatch_gen5_load5 :
    net_gen devsGen5Load5 = 5 ∧ net_load devsGen5Load5 = 5 ∧
    specClassify 5 5 0 = (LoadState.NORM, none) ∧
    (LoadTable stNorm devsGen5Load5).l_Status = LoadState.SUPPLY := by
  refine ⟨?_, ?_, ?_, ?_⟩
  · rw [devsGen5Load5, net_gen_bench]
  · rw [devsGen5Load5, net_load_bench]
  · norm_num [specClassify]
  · rw [LoadTable_l_Status, devsGen5Load5, net_gen_bench, net_load_bench]
    norm_num [lbStatus]

/-- C2 (code bug witness): classifying net generation 3 against net load 5
makes LoadTable enter the DEMAND state while storing DemandValue
= 1 - P_Gateway = -1, which is not positive. -/
theorem loadTable_demand_value_negative :
    (LoadTable stNorm devsGen3Load5).l_Status = LoadState.DEMAND ∧
    (LoadTable stNorm devsGen3Load5).DemandValue = -1 ∧
    ¬ (0 < (LoadTable stNorm devsGen3Load5).DemandValue) := by
  have hdv : (LoadTable stNorm devsGen3Load5).DemandValue = -1 := by
    rw [LoadTable_DemandValue, devsGen3Load5, net_gen_bench, net_load_bench]
    norm_num [lbDemandValue, stNorm]
  refine ⟨?_, hdv, ?_⟩
  · rw [LoadTable_l_Status, devsGen3Load5, net_gen_bench, net_load_bench]
    norm_num [lbStatus]
  · rw [hdv]
    norm_num

theorem LoadManage_fst (s : AgentState) (devs : List Device) :
    (LoadManage s devs).1 = LoadTable { s with preLoad := s.l_Status } devs := by
  simp only [LoadManage]
  split_ifs <;> rfl

theorem broadcastTo_filter_demand (peers : List String) (selfU : String) (b : OutBody) :
    (broadcastTo peers selfU b).filter (fun m => decide (m.body = OutBody.demand)) =
      (if b = OutBody.demand then broadcastTo peers selfU b else []) := by
  unfold broadcastTo
  generalize (peers.filter fun u => u ≠ selfU) = l
  induction l with
  | nil => simp
  | cons hd tl ih =>
      by_cases hb : b = OutBody.demand
      · subst hb
        simp only [List.map_cons, List.filter_cons] at *
        simp [ih]
      · simp only [List.map_cons, List.filter_cons] at *
        simp [hb, ih]

/-- C3 (amended): a demand message is broadcast only on ticks whose previous
status was NORM and whose new status is DEMAND, and then to every peer of
l_AllPeers other than self; on every other tick, including each further tick
of an uninterrupted DEMAND stretch, no demand message is sent. -/
theorem demand_broadcast_only_on_norm_edge (s : AgentState) (devs : List Device) :
    (LoadManage s devs).2.filter (fun m => decide (m.body = OutBody.demand)) =
      (if s.l_Status = LoadState.NORM ∧ (LoadManage s devs).1.l_Status = LoadState.DEMAND
       then broadcastTo s.l_AllPeers s.selfUUID OutBody.demand
       else []) := by
  have hpre : (LoadTable { s with preLoad := s.l_Status } devs).preLoad = s.l_Status :=
    LoadTable_preLoad { s with preLoad := s.l_Status } devs
  have hall : (LoadTable { s with preLoad := s.l_Status } devs).l_AllPeers = s.l_AllPeers :=
    LoadTable_l_AllPeers { s with preLoad := s.l_Status } devs
  have hself : (LoadTable { s with preLoad := s.l_Status } devs).selfUUID = s.selfUUID :=
    LoadTable_selfUUID { s with preLoad := s.l_Status } devs
  rw [LoadManage_fst]
  by_cases hc1 : (LoadTable { s with preLoad := s.l_Status } devs).preLoad = LoadState.NORM ∧
      (LoadTable { s with preLoad := s.l_Status } devs).l_Status = LoadState.DEMAND
  · have hsnd : (LoadManage s devs).2 =
        broadcastTo (LoadTable { s with preLoad := s.l_Status } devs).l_AllPeers
          (LoadTable { s with preLoad := s.l_Status } devs).selfUUID OutBody.demand := by
      simp only [LoadManage]
      rw [if_pos hc1]
    have hn : s.l_Status = LoadState.NORM := by
      rw [← hpre]
      exact hc1.1
    rw [hsnd, hall, hself, broadcastTo_filter_demand, if_pos rfl, if_pos ⟨hn, hc1.2⟩]
  · have hnotc4 : ¬(s.l_Status = LoadState.NORM ∧
        (LoadTable { s with preLoad := s.l_Status } devs).l_Status = LoadState.DEMAND) := by
      intro h4
      exact hc1 ⟨by rw [hpre]; exact h4.1, h4.2⟩
    rw [if_neg hnotc4]
    simp only [LoadManage]
    rw [if_neg hc1]
    by_cases hc2 : (LoadTable { s with preLoad := s.l_Status } devs).preLoad = LoadState.DEMAND ∧
        (LoadTable { s with preLoad := s.l_Status } devs).l_Status = LoadState.NORM
    · rw [if_pos hc2]
      show (broadcastTo (LoadTable { s with preLoad := s.l_Status } devs).l_AllPeers
          (LoadTable { s with preLoad := s.l_Status } devs).selfUUID OutBody.normal).filter
          (fun m => decide (m.body = OutBody.demand)) = []
      rw [broadcastTo_filter_demand]
      simp
    · rw [if_neg hc2]
      by_cases hc3 : (LoadTable { s with preLoad := s.l_Status } devs).l_Status = LoadState.SUPPLY
      · rw [if_pos hc3]
        show (SendDraftRequest (LoadTable { s with preLoad := s.l_Status } devs)).filter
            (fun m => decide (m.body = OutBody.demand)) = []
        unfold SendDraftRequest
        rw [if_pos hc3, broadcastTo_filter_demand]
        simp
      · rw [if_neg hc3]
        rfl

/-- C3 (counterexample): an agent already in DEMAND that is classified
DEMAND again on the next tick broadcasts nothing, although peer B is in its
registry. -/
theorem demand_tick_no_rebroadcast :
    (LoadManage stDemand devsGen3Load5).1.l_Status = LoadState.DEMAND ∧
    (LoadManage stDemand devsGen3Load5).2 = [] ∧
    ("B") ∈ stDemand.l_AllPeers ∧ ("B") ≠ stDemand.selfUUID := by
  have hst : (LoadTable { stDemand with preLoad := stDemand.l_Status } devsGen3Load5).l_Status
      = LoadState.DEMAND := by
    rw [LoadTable_l_Status, devsGen3Load5, net_gen_bench, net_load_bench]
    norm_num [lbStatus]
  have hpre : (LoadTable { stDemand with preLoad := stDemand.l_Status } devsGen3Load5).preLoad
      = LoadState.DEMAND :=
    LoadTable_preLoad { stDemand with preLoad := stDemand.l_Status } devsGen3Load5
  refine ⟨?_, ?_, by decide, by decide⟩
  · rw [LoadManage_fst]
    exact hst
  · simp only [LoadManage]
    rw [if_neg (by simp [hpre]), if_neg (by simp [hst]), if_neg (by simp [hst])]

/-- C4 (amended): on a tick classified SUPPLY, the request message is sent
exactly to the peers of the post-tick DEMAND bucket m_HiNodes other than
self; peers outside that bucket receive nothing. -/
theorem supply_tick_requests_demand_bucket (s : AgentState) (devs : List Device)
    (h : (LoadManage s devs).1.l_Status = LoadState.SUPPLY) :
    (LoadManage s devs).2 =
      broadcastTo (LoadManage s devs).1.m_HiNodes s.selfUUID OutBody.request := by
  have hself : (LoadTable { s with preLoad := s.l_Status } devs).selfUUID = s.selfUUID :=
    LoadTable_selfUUID { s with preLoad := s.l_Status } devs
  rw [LoadManage_fst] at h ⊢
  simp only [LoadManage]
  rw [if_neg (by simp [h]), if_neg (by simp [h]), if_pos h]
  unfold SendDraftRequest
  rw [if_pos h, hself]

/-- C4 (counterexample): agent A in SUPPLY with registry peers B (DEMAND
bucket) and C (NORMAL bucket) sends the request only to B; C, a registry
peer other than self, receives nothing. -/
theorem request_skips_non_demand_peer :
    (LoadManage stSupply devsGen5Load0).2 = [{ dest := ("B"), body := OutBody.request }] ∧
    ("C") ∈ stSupply.l_AllPeers ∧ ("C") ≠ stSupply.selfUUID := by
  have hst : (LoadTable { stSupply with preLoad := stSupply.l_Status } devsGen5Load0).l_Status
      = LoadState.SUPPLY := by
    rw [LoadTable_l_Status, devsGen5Load0, net_gen_bench, net_load_bench]
    norm_num [lbStatus]
  refine ⟨?_, by decide, by decide⟩
  simp only [LoadManage]
  rw [if_neg (by simp [hst]), if_neg (by simp [hst]), if_pos hst]
  unfold SendDraftRequest
  rw [if_pos hst]
  have hhi : (LoadTable { stSupply with preLoad := stSupply.l_Status } devsGen5Load0).m_HiNodes
      = [("B")] := by
    simp only [LoadTable]
    rw [if_pos (by decide)]
    have : lbStatus (net_load devsGen5Load0 - net_gen devsGen5Load0) = LoadState.SUPPLY := by
      rw [devsGen5Load0, net_gen_bench, net_load_bench]
      norm_num [lbStatus]
    rw [this]
    decide
  have hselfu : (LoadTable { stSupply with preLoad := stSupply.l_Status } devsGen5Load0).selfUUID
      = ("A") :=
    LoadTable_selfUUID { stSupply with preLoad := stSupply.l_Status } devsGen5Load0
  rw [hhi, hselfu]
  decide

/-- C5 (amended): a drafting message from a known peer P other than self is
answered, when the local status is DEMAND, with an accept carrying
DemandValue, and nothing else happens: no device command is issued (the
power-setting code of the branch is commented out) and the state is
unchanged; outside DEMAND the message has no effect at all. -/
theorem drafting_reply_no_actuation (devs : List Device) (s : AgentState) (P : String)
    (hP : P ∈ s.l_AllPeers) (hne : P ≠ s.selfUUID) :
    HandleRead devs s { source := P, body := MsgBody.drafting } =
      (if s.l_Status = LoadState.DEMAND then
        Except.ok (s, [{ dest := P, body := OutBody.accept s.DemandValue }], [])
       else Except.ok (s, [], [])) := by
  simp [HandleRead, get_peer, hP, hne]

/-- C5 (counterexample): agent A in DEMAND with DemandValue 2 receiving
drafting from peer B sends accept with value 2 and issues no device command,
in particular no receive actuation. -/
theorem drafting_without_receive_actuation :
    hrOk (HandleRead [] stDemand { source := ("B"), body := MsgBody.drafting }) = true ∧
    hrMsgs (HandleRead [] stDemand { source := ("B"), body := MsgBody.drafting }) =
      [{ dest := ("B"), body := OutBody.accept 2 }] ∧
    hrActs (HandleRead [] stDemand { source := ("B"), body := MsgBody.drafting }) = [] :=
  ⟨rfl, rfl, rfl⟩

/-- C6 (amended): an accept from a known peer P other than self while in
SUPPLY invokes InitiatePowerMigration with the received value, and that
call issues no device command whatsoever: no message is sent, the state is
unchanged and the device command list is empty. -/
theorem accept_in_supply_no_device_command (devs : List Device) (s : AgentState)
    (P : String) (v : ℚ) (hP : P ∈ s.l_AllPeers) (hne : P ≠ s.selfUUID)
    (hst : s.l_Status = LoadState.SUPPLY) :
    HandleRead devs s { source := P, body := MsgBody.accept v } =
      Except.ok (s, [], InitiatePowerMigration devs v) ∧
    InitiatePowerMigration devs v = [] := by
  constructor
  · simp [HandleRead, get_peer, hP, hne, hst]
  · rfl

/-- C6 (counterexample): agent A in SUPPLY receiving accept with value 3
from peer B, with a DESD of power level 4 attached, issues no device command
at all; in particular the GRID-link device is never turned on. -/
theorem accept_supply_no_gridlink_actuation :
    stSupply.l_Status = LoadState.SUPPLY ∧
    hrOk (HandleRead (bench 0 4 0 0 0) stSupply { source := ("B"), body := MsgBody.accept 3 })
      = true ∧
    hrActs (HandleRead (bench 0 4 0 0 0) stSupply { source := ("B"), body := MsgBody.accept 3 })
      = [] ∧
    hrMsgs (HandleRead (bench 0 4 0 0 0) stSupply { source := ("B"), body := MsgBody.accept 3 })
      = [] :=
  ⟨rfl, rfl, rfl, rfl⟩

/-- C7: an accept from a known peer P other than self while the local
status is not SUPPLY is dropped: no message, no device command, and the
agent state (including every peer bucket) is unchanged. -/
theorem accept_outside_supply_no_effect (devs : List Device) (s : AgentState)
    (P : String) (v : ℚ) (hP : P ∈ s.l_AllPeers) (hne : P ≠ s.selfUUID)
    (hst : s.l_Status ≠ LoadState.SUPPLY) :
    HandleRead devs s { source := P, body := MsgBody.accept v } = Except.ok (s, [], []) := by
  simp [HandleRead, get_peer, hP, hne, hst]

/-- C7 (witness): the theorem applied to agent A in NORM receiving accept
with value 3 from peer B. -/
theorem accept_outside_supply_no_effect_witness :
    HandleRead [] stNorm { source := ("B"), body := MsgBody.accept 3 }
      = Except.ok (stNorm, [], []) :=
  accept_outside_supply_no_effect [] stNorm ("B") 3 (by decide) (by decide) (by decide)

/-- C9 (amended): messages whose source is the agent itself are not
uniformly ignored: a load from self is answered with an sc status reply sent
to self, a peerList from self is processed normally, and the peer-guarded
handlers (request, demand, normal, supply, yes, no, drafting, accept)
dereference the null peer handle, modelled as a fault. -/
theorem self_messages_not_ignored (devs : List Device) (s : AgentState) (v : ℚ) (g : String)
    (hself : s.selfUUID ∈ s.l_AllPeers) :
    HandleRead devs s { source := s.selfUUID, body := MsgBody.load } =
      Except.ok (s, [{ dest := s.selfUUID, body := OutBody.scStatus (statusString s.l_Status) }], []) ∧
    hrOk (HandleRead devs s { source := s.selfUUID, body := MsgBody.peerList g }) = true ∧
    HandleRead devs s { source := s.selfUUID, body := MsgBody.request } = Except.error () ∧
    HandleRead devs s { source := s.selfUUID, body := MsgBody.demand } = Except.error () ∧
    HandleRead devs s { source := s.selfUUID, body := MsgBody.normal } = Except.error () ∧
    HandleRead devs s { source := s.selfUUID, body := MsgBody.supply } = Except.error () ∧
    HandleRead devs s { source := s.selfUUID, body := MsgBody.yes } = Except.error () ∧
    HandleRead devs s { source := s.selfUUID, body := MsgBody.no } = Except.error () ∧
    HandleRead devs s { source := s.selfUUID, body := MsgBody.drafting } = Except.error () ∧
    HandleRead devs s { source := s.selfUUID, body := MsgBody.accept v } = Except.error () := by
  refine ⟨?_, ?_, ?_, ?_, ?_, ?_, ?_, ?_, ?_, ?_⟩ <;>
    simp [HandleRead, get_peer, hrOk, hself]

/-- C9 (counterexample): a load message whose source is the agent's own
UUID is answered with a status reply sent to the agent itself, so it is not
silently ignored. -/
theorem load_from_self_gets_reply :
    hrMsgs (HandleRead [] stNorm { source := ("A"), body := MsgBody.load }) =
      [{ dest := ("A"), body := OutBody.scStatus ("NORMAL") }] ∧
    stNorm.selfUUID = ("A") :=
  ⟨rfl, rfl⟩

theorem mem_InsertInPeerSet {l : List String} {u x : String} :
    x ∈ InsertInPeerSet l u ↔ x ∈ l ∨ x = u := by
  unfold InsertInPeerSet
  split <;> rename_i h
  · constructor
    · exact Or.inl
    · rintro (hx | rfl)
      · exact hx
      · exact h
  · simp [List.mem_append]

theorem InsertInPeerSet_toFinset (l : List String) (u : String) :
    (InsertInPeerSet l u).toFinset = insert u l.toFinset := by
  unfold InsertInPeerSet
  split <;> rename_i h
  · exact (Finset.insert_eq_self.mpr (List.mem_toFinset.mpr h)).symm
  · simp [List.toFinset_append, Finset.union_comm, Finset.insert_eq]

theorem get_peer_some_mem {s : AgentState} {t u : String} (h : get_peer s t = some u) :
    t ∈ s.l_AllPeers := by
  unfold get_peer at h
  by_cases hm : t ∈ s.l_AllPeers
  · exact hm
  · rw [if_neg hm] at h
    cases h

theorem addMissingPeers_selfUUID (toks : List String) (s : AgentState) :
    (addMissingPeers s toks).selfUUID = s.selfUUID := by
  induction toks generalizing s with
  | nil => rfl
  | cons t ts ih =>
      show (addMissingPeers
        (match get_peer s t with
         | some _ => s
         | none => add_peer s t) ts).selfUUID = s.selfUUID
      cases get_peer s t with
      | some u => exact ih s
      | none => exact ih (add_peer s t)

theorem addMissingPeers_l_AllPeers_toFinset (toks : List String) (s : AgentState) :
    (addMissingPeers s toks).l_AllPeers.toFinset = s.l_AllPeers.toFinset ∪ toks.toFinset := by
  induction toks generalizing s with
  | nil => simp [addMissingPeers]
  | cons t ts ih =>
      show (addMissingPeers
        (match get_peer s t with
         | some _ => s
         | none => add_peer s t) ts).l_AllPeers.toFinset
        = s.l_AllPeers.toFinset ∪ (t :: ts).toFinset
      cases hgp : get_peer s t with
      | some u =>
          have ht : t ∈ s.l_AllPeers := get_peer_some_mem hgp
          rw [ih s, List.toFinset_cons, Finset.union_insert]
          exact (Finset.insert_eq_self.mpr
            (Finset.mem_union_left _ (List.mem_toFinset.mpr ht))).symm
      | none =>
          rw [ih (add_peer s t)]
          show (InsertInPeerSet s.l_AllPeers t).toFinset ∪ ts.toFinset
            = s.l_AllPeers.toFinset ∪ (t :: ts).toFinset
          rw [InsertInPeerSet_toFinset, List.toFinset_cons, Finset.insert_union,
            Finset.union_insert]

theorem addMissingPeers_m_NoNodes_superset (toks : List String) (s : AgentState) (x : String)
    (hx : x ∈ s.m_NoNodes ∨ (x ∈ toks ∧ x ∉ s.l_AllPeers)) :
    x ∈ (addMissingPeers s toks).m_NoNodes := by
  induction toks generalizing s with
  | nil =>
      rcases hx with h | ⟨h, _⟩
      · exact h
      · cases h
  | cons t ts ih =>
      show x ∈ (addMissingPeers
        (match get_peer s t with
         | some _ => s
         | none => add_peer s t) ts).m_NoNodes
      cases hgp : get_peer s t with
      | some u =>
          apply ih s
          rcases hx with h | ⟨hmem, hnotin⟩
          · exact Or.inl h
          · have ht : t ∈ s.l_AllPeers := get_peer_some_mem hgp
            rcases List.mem_cons.mp hmem with rfl | hx2
            · exact absurd ht hnotin
            · exact Or.inr ⟨hx2, hnotin⟩
      | none =>
          apply ih (add_peer s t)
          rcases hx with h | ⟨hmem, hnotin⟩
          · exact Or.inl (mem_InsertInPeerSet.mpr (Or.inl h))
          · rcases List.mem_cons.mp hmem with rfl | hx2
            · exact Or.inl (mem_InsertInPeerSet.mpr (Or.inr rfl))
            · by_cases hxt : x = t
              · subst hxt
                exact Or.inl (mem_InsertInPeerSet.mpr (Or.inr rfl))
              · refine Or.inr ⟨hx2, fun hcon => ?_⟩
                rcases mem_InsertInPeerSet.mp hcon with h2 | h2
                · exact hnotin h2
                · exact hxt h2

theorem filter_self_toFinset (l : List String) (a : String) (h : a ∈ l) :
    (l.filter (fun u => u = a)).toFinset = {a} := by
  ext x
  simp only [List.mem_toFinset, List.mem_filter, Finset.mem_singleton, decide_eq_true_eq]
  constructor
  · exact fun hx => hx.2
  · rintro rfl
    exact ⟨h, rfl⟩

theorem processPeerList_spec (s : AgentState) (peers_ : String)
    (hself : s.selfUUID ∈ s.l_AllPeers) :
    (processPeerList s peers_).l_AllPeers.toFinset
        = insert s.selfUUID (getlineTokens peers_).toFinset ∧
    (getlineTokens peers_).toFinset \ {s.selfUUID} ⊆
      (processPeerList s peers_).m_NoNodes.toFinset := by
  unfold processPeerList
  constructor
  · rw [addMissingPeers_l_AllPeers_toFinset]
    show (s.l_AllPeers.filter (fun u => u = s.selfUUID)).toFinset ∪ _ = _
    rw [filter_self_toFinset s.l_AllPeers s.selfUUID hself, Finset.insert_eq]
  · intro x hx
    rw [Finset.mem_sdiff, Finset.mem_singleton] at hx
    rw [List.mem_toFinset]
    apply addMissingPeers_m_NoNodes_superset
    refine Or.inr ⟨List.mem_toFinset.mp hx.1, fun hcon => ?_⟩
    have hxx : x ∈ s.l_AllPeers.filter (fun u => u = s.selfUUID) := hcon
    have := (List.mem_filter.mp hxx).2
    exact hx.2 (by simpa using this)

/-- C8: processing a peerList message carrying the roster string G leaves
the registry holding exactly the tokens of G together with the agent's own
UUID (every prior peer absent from G other than self is evicted), and every
roster member other than self ends in the NORMAL bucket m_NoNodes, the
classification add_peer gives newly created entries. -/
theorem peerList_replaces_group (devs : List Device) (s : AgentState) (src peers_ : String)
    (hself : s.selfUUID ∈ s.l_AllPeers) :
    (hrState s (HandleRead devs s
        { source := src, body := MsgBody.peerList peers_ })).l_AllPeers.toFinset
      = insert s.selfUUID (getlineTokens peers_).toFinset ∧
    (getlineTokens peers_).toFinset \ {s.selfUUID} ⊆
      (hrState s (HandleRead devs s
        { source := src, body := MsgBody.peerList peers_ })).m_NoNodes.toFinset := by
  by_cases hsrc : src = s.selfUUID
  · have hred : hrState s (HandleRead devs s
        { source := src, body := MsgBody.peerList peers_ }) = processPeerList s peers_ := by
      simp [HandleRead, hrState, hsrc]
    rw [hred]
    exact processPeerList_spec s peers_ hself
  · cases hgp : get_peer s src with
    | some u =>
        have hred : hrState s (HandleRead devs s
            { source := src, body := MsgBody.peerList peers_ }) = processPeerList s peers_ := by
          simp [HandleRead, hrState, hsrc, hgp]
        rw [hred]
        exact processPeerList_spec s peers_ hself
    | none =>
        have hred : hrState s (HandleRead devs s
            { source := src, body := MsgBody.peerList peers_ })
            = processPeerList (add_peer s src) peers_ := by
          simp [HandleRead, hrState, hsrc, hgp]
        rw [hred]
        have hself2 : (add_peer s src).selfUUID ∈ (add_peer s src).l_AllPeers :=
          mem_InsertInPeerSet.mpr (Or.inl hself)
        exact processPeerList_spec (add_peer s src) peers_ hself2

/-- C10: CGridLinkDevice::get_powerLevel performs the Get("powerLevel") read
but never returns a value, for every simulation environment, whereas
CPVDevice::get_powerLevel returns exactly the reading. -/
theorem gridlink_get_powerLevel_returns_nothing (env : String → ℚ) :
    (CGridLinkDevice_get_powerLevel env).ret = none ∧
    (CGridLinkDevice_get_powerLevel env).reads = [("powerLevel")] ∧
    (CPVDevice_get_powerLevel env).ret = some (pscadGet env ("powerLevel")) :=
  ⟨rfl, rfl, rfl⟩

/-- C4 (witness): the amended theorem applied to agent A in SUPPLY with the
generation-only bench. -/
theorem supply_tick_requests_demand_bucket_witness :
    (LoadManage stSupply devsGen5Load0).2 =
      broadcastTo (LoadManage stSupply devsGen5Load0).1.m_HiNodes stSupply.selfUUID
        OutBody.request :=
  supply_tick_requests_demand_bucket stSupply devsGen5Load0
    (by
      rw [LoadManage_fst, LoadTable_l_Status, devsGen5Load0, net_gen_bench, net_load_bench]
      norm_num [lbStatus])

/-- C5 (witness): the amended theorem applied to agent A in DEMAND receiving
drafting from peer B. -/
theorem drafting_reply_no_actuation_witness :
    HandleRead [] stDemand { source := ("B"), body := MsgBody.drafting } =
      (if stDemand.l_Status = LoadState.DEMAND then
        Except.ok (stDemand,
          [{ dest := ("B"), body := OutBody.accept stDemand.DemandValue }], [])
       else Except.ok (stDemand, [], [])) :=
  drafting_reply_no_actuation [] stDemand ("B") (by decide) (by decide)

/-- C6 (witness): the amended theorem applied to agent A in SUPPLY receiving
accept with value 3 from peer B with one DESD attached. -/
theorem accept_in_supply_no_device_command_witness :
    HandleRead (bench 0 4 0 0 0) stSupply { source := ("B"), body := MsgBody.accept 3 } =
      Except.ok (stSupply, [], InitiatePowerMigration (bench 0 4 0 0 0) 3) ∧
    InitiatePowerMigration (bench 0 4 0 0 0) 3 = [] :=
  accept_in_supply_no_device_command (bench 0 4 0 0 0) stSupply ("B") 3
    (by decide) (by decide) (by decide)

/-- C9 (witness): the amended theorem applied to agent A in NORM, with value
1 and roster string X for the parametrized bodies. -/
theorem self_messages_not_ignored_witness :
    HandleRead [] stNorm { source := stNorm.selfUUID, body := MsgBody.load } =
      Except.ok (stNorm,
        [{ dest := stNorm.selfUUID, body := OutBody.scStatus (statusString stNorm.l_Status) }],
        []) ∧
    hrOk (HandleRead [] stNorm { source := stNorm.selfUUID, body := MsgBody.peerList ("X") })
      = true ∧
    HandleRead [] stNorm { source := stNorm.selfUUID, body := MsgBody.request }
      = Except.error () ∧
    HandleRead [] stNorm { source := stNorm.selfUUID, body := MsgBody.demand }
      = Except.error () ∧
    HandleRead [] stNorm { source := stNorm.selfUUID, body := MsgBody.normal }
      = Except.error () ∧
    HandleRead [] stNorm { source := stNorm.selfUUID, body := MsgBody.supply }
      = Except.error () ∧
    HandleRead [] stNorm { source := stNorm.selfUUID, body := MsgBody.yes }
      = Except.error () ∧
    HandleRead [] stNorm { source := stNorm.selfUUID, body := MsgBody.no }
      = Except.error () ∧
    HandleRead [] stNorm { source := stNorm.selfUUID, body := MsgBody.drafting }
      = Except.error () ∧
    HandleRead [] stNorm { source := stNorm.selfUUID, body := MsgBody.accept 1 }
      = Except.error () :=
  self_messages_not_ignored [] stNorm 1 ("X") (by decide)

/-- C8 (witness): the theorem applied to agent A receiving the roster B,D
from source B. -/
theorem peerList_replaces_group_witness :
    (hrState stNorm (HandleRead [] stNorm
        { source := ("B"), body := MsgBody.peerList ("B,D") })).l_AllPeers.toFinset
      = insert stNorm.selfUUID (getlineTokens ("B,D")).toFinset ∧
    (getlineTokens ("B,D")).toFinset \ {stNorm.selfUUID} ⊆
      (hrState stNorm (HandleRead [] stNorm
        { source := ("B"), body := MsgBody.peerList ("B,D") })).m_NoNodes.toFinset :=
  peerList_replaces_group [] stNorm ("B") ("B,D") (by decide)

end LWI
